import Mathlib

/-!
Shallow embedding of `src/backend/services/search_service.py` (class
`SearchService`) and `src/backend/utils/config.py` from the rag-training
repository, together with theorems settling the specification claims.

Python floats that carry similarity scores and distances are modelled as
rationals (`ℚ`); Python dicts whose key sets matter are modelled as
association lists `List (String × PyVal)` in literal order; fallible
Python code is modelled in `Except PyError`; the external collaborators
(the Milvus / Chroma stores, the embedding service and the persistence
helper) are modelled as oracles: a record of the responses each external
call would give during the one search call under study (each external
operation is invoked at most once per call, so a fixed response per
operation loses no generality).  Calls to collaborators are recorded in
an event trace so that claims about "no partial work", "single bounded
query" and connect/disconnect pairing can be stated.
-/

/-- A Python scalar value as it appears in hit metadata: a string or an
integer (the only kinds the mapped fields carry). -/
inductive PyVal : Type
  | pyStr (s : String)
  | pyInt (n : Int)
deriving DecidableEq, Repr

/-- A Python exception, as far as `search_service.py` can observe it.
`valueError msg` is `ValueError(msg)` as raised by the source itself;
`indexError` is the `IndexError` of a bad list subscript; `native tag` is
an arbitrary exception coming out of a collaborator (pymilvus, chromadb,
the embedding service or the filesystem), identified by its message.
`searchBackendError e` is NOT raised anywhere in the source: it is
modelled from the spec, which describes a generic `SearchBackendError`
wrapping the native store failure; it exists here so that the presence or
absence of such wrapping is statable. -/
inductive PyError : Type
  | valueError (msg : String)
  | indexError
  | native (tag : String)
  | searchBackendError (inner : PyError)
deriving DecidableEq, Repr

/-- Rendering `str(e)` of a modelled exception, used for the `save_error` field. -/
def PyError.str : PyError → String
  | PyError.valueError m => m
  | PyError.indexError => "list index out of range"
  | PyError.native tag => tag
  | PyError.searchBackendError e => "SearchBackendError: " ++ PyError.str e

/-- True exactly when the exception is the spec's `SearchBackendError`
wrapper around a native failure. -/
def PyError.isBackendWrapped : PyError → Bool
  | PyError.searchBackendError _ => true
  | _ => false

/-- One externally visible action of a search call: every call to a
collaborator (store, embedding service, persistence) is recorded with the
arguments the source passes. -/
inductive Event : Type
  | connect (conn_alias uri : String)
  | loadCollection (collection_id : String)
  | milvusQuery (expr : String) (output_fields : List String) (lim : Nat)
  | milvusSearch (lim : Nat) (expr : String)
  | disconnect (conn_alias : String)
  | chromaClient (path : String)
  | chromaGetCollection (collection_id : String)
  | chromaQuery (n_results : Nat) (where_gte : Int)
  | embedQuery (text : String) (provider model : PyVal)
  | saveResults (query collection_id : String)
deriving DecidableEq, Repr

/-- Constant `MILVUS_CONFIG["uri"]` from `utils/config.py`. -/
def milvusUri : String := "03-vector-store/langchain_milvus.db"

/-- Constant `CHROMA_CONFIG["persist_directory"]` from `utils/config.py`. -/
def chromaPersistDir : String := "03-vector-store/chroma_db"

/-- Tag `VectorDBProvider.MILVUS.value` (a str-enum, so comparisons with a
plain string compare the tag). -/
def milvusTag : String := "milvus"

/-- Tag `VectorDBProvider.CHROMA.value`. -/
def chromaTag : String := "chroma"

/-- A Milvus hit as consumed by `_search_milvus`: the fields requested in
`output_fields` are present on `hit.entity`, plus `hit.score`. -/
structure MilvusHit : Type where
  score : ℚ
  content : String
  document_name : String
  page_number : Int
  chunk_id : Int
  total_chunks : Int
  page_range : String
  embedding_provider : String
  embedding_model : String
  embedding_timestamp : String
deriving DecidableEq, Repr

/-- One record of `collection.query(expr="id >= 0", output_fields=
["embedding_provider", "embedding_model"], limit=1)`. -/
structure MilvusConfigRec : Type where
  embedding_provider : String
  embedding_model : String
deriving DecidableEq, Repr

/-- A canonical hit: the dict `{"text": ..., "score": ..., "metadata":
{...}}` built identically by both backend branches. -/
structure CanonicalHit : Type where
  text : String
  score : ℚ
  metadata : List (String × PyVal)
deriving DecidableEq, Repr

/-- The metadata dict literal of the Milvus branch (lines 161-170). -/
def milvusCanonMeta (h : MilvusHit) : List (String × PyVal) :=
  [("source", PyVal.pyStr h.document_name),
   ("page", PyVal.pyInt h.page_number),
   ("chunk", PyVal.pyInt h.chunk_id),
   ("total_chunks", PyVal.pyInt h.total_chunks),
   ("page_range", PyVal.pyStr h.page_range),
   ("embedding_provider", PyVal.pyStr h.embedding_provider),
   ("embedding_model", PyVal.pyStr h.embedding_model),
   ("embedding_timestamp", PyVal.pyStr h.embedding_timestamp)]

/-- The canonical record the Milvus branch appends for a kept hit. -/
def milvusToCanonical (h : MilvusHit) : CanonicalHit :=
  { text := h.content, score := h.score, metadata := milvusCanonMeta h }

/-- Lines 154-172 of `_search_milvus`: the nested loop over
`results` / `hits`, keeping a hit iff `hit.score >= threshold`. -/
def processMilvusHits (results : List (List MilvusHit)) (threshold : ℚ) :
    List CanonicalHit :=
  results.flatten.filterMap fun hit =>
    if threshold ≤ hit.score then some (milvusToCanonical hit) else none

/-- A concrete Milvus hit used by the witness theorems: canonical
similarity exactly 1. -/
def hitA : MilvusHit :=
  { score := 1, content := "alpha", document_name := "doc.pdf",
    page_number := 1, chunk_id := 0, total_chunks := 2, page_range := "1-1",
    embedding_provider := "openai", embedding_model := "m",
    embedding_timestamp := "ts" }

/-- A concrete Milvus hit used by the witness theorems: canonical
similarity 0. -/
def hitB : MilvusHit :=
  { score := 0, content := "beta", document_name := "doc.pdf",
    page_number := 2, chunk_id := 1, total_chunks := 2, page_range := "2-2",
    embedding_provider := "openai", embedding_model := "m",
    embedding_timestamp := "ts" }


/-- Python list subscription `l[i]`: the value, or an `IndexError`. -/
def pyIndex {α : Type} (l : List α) (i : Nat) : Except PyError α :=
  match l.get? i with
  | some a => Except.ok a
  | none => Except.error PyError.indexError

/-- A Chroma metadata dict: keys to values, in insertion order.
`meta.get(k, d)` is `(pyDictGet m k d)`. -/
def pyDictGet (m : List (String × PyVal)) (k : String) (d : PyVal) : PyVal :=
  (m.lookup k).getD d

/-- The metadata dict literal of the Chroma branch (lines 226-235):
each native field is read with `meta.get`, defaulting to an empty string
or zero when absent. -/
def chromaCanonMeta (meta : List (String × PyVal)) : List (String × PyVal) :=
  [("source", pyDictGet meta "document_name" (PyVal.pyStr "")),
   ("page", pyDictGet meta "page_number" (PyVal.pyStr "")),
   ("chunk", pyDictGet meta "chunk_id" (PyVal.pyInt 0)),
   ("total_chunks", pyDictGet meta "total_chunks" (PyVal.pyInt 0)),
   ("page_range", pyDictGet meta "page_range" (PyVal.pyStr "")),
   ("embedding_provider", pyDictGet meta "embedding_provider" (PyVal.pyStr "")),
   ("embedding_model", pyDictGet meta "embedding_model" (PyVal.pyStr "")),
   ("embedding_timestamp", pyDictGet meta "embedding_timestamp" (PyVal.pyStr ""))]

/-- The native Chroma query response, a dict of parallel list-of-lists
(one inner list per query vector).  `none` on a key models the key being
absent, so that `results.get(key, [[]])` is `(field.getD [[]])`; a `none`
entry in `metadatas` models a `None` metadata (`metadatas[i] or {}`). -/
structure ChromaResponse : Type where
  ids : Option (List (List String))
  distances : Option (List (List ℚ))
  documents : Option (List (List String))
  metadatas : Option (List (List (Option (List (String × PyVal)))))
deriving DecidableEq

/-- Line 218, `cosine_sim = 1 - distances[i] if distances else 0.0`:
with an empty distance list the similarity is 0.0 for every index; with a
non-empty one, `distances[i]` is subscripted (and may raise). -/
def chromaSimR (ds : List ℚ) (i : Nat) : Except PyError ℚ :=
  if ds.isEmpty then Except.ok 0
  else
    match pyIndex ds i with
    | Except.ok d => Except.ok (1 - d)
    | Except.error e => Except.error e

/-- The canonical record the Chroma branch appends for a kept hit
(lines 222-236): `metadatas[i] or {}` defaults a `None` metadata to the
empty dict. -/
def chromaBuildHit (sim : ℚ) (doc : String)
    (mOpt : Option (List (String × PyVal))) : CanonicalHit :=
  { text := doc, score := sim, metadata := chromaCanonMeta (mOpt.getD []) }

/-- The loop `for i in range(len(ids_list))` of `_search_chroma`
(lines 216-236), with `k` iterations left and `i` the current index.
Each iteration computes `cosine_sim`, skips the hit when
`cosine_sim < threshold`, and otherwise appends the canonical record
built from `documents[i]` and `metadatas[i]`.  Any out-of-range subscript
raises, exactly where Python would. -/
def chromaLoop (t : ℚ) (ds : List ℚ) (docs : List String)
    (ms : List (Option (List (String × PyVal)))) :
    Nat → Nat → Except PyError (List CanonicalHit)
  | 0, _ => Except.ok []
  | k + 1, i =>
    match chromaSimR ds i with
    | Except.error e => Except.error e
    | Except.ok cosine_sim =>
      if cosine_sim < t then chromaLoop t ds docs ms k (i + 1)
      else
        match pyIndex docs i with
        | Except.error e => Except.error e
        | Except.ok doc =>
          match pyIndex ms i with
          | Except.error e => Except.error e
          | Except.ok mOpt =>
            match chromaLoop t ds docs ms k (i + 1) with
            | Except.error e => Except.error e
            | Except.ok rest =>
              Except.ok (chromaBuildHit cosine_sim doc mOpt :: rest)

/-- Lines 207-237 of `_search_chroma`: extract the first inner list of
each field (defaulting an absent key to `[[]]`), return `[]` straight
away when the id list is empty, and otherwise run the loop over all ids. -/
def processChromaHits (r : ChromaResponse) (threshold : ℚ) :
    Except PyError (List CanonicalHit) :=
  match pyIndex (r.ids.getD [[]]) 0 with
  | Except.error e => Except.error e
  | Except.ok ids_list =>
    if ids_list.isEmpty then Except.ok []
    else
      match pyIndex (r.distances.getD [[]]) 0 with
      | Except.error e => Except.error e
      | Except.ok distances =>
        match pyIndex (r.documents.getD [[]]) 0 with
        | Except.error e => Except.error e
        | Except.ok documents =>
          match pyIndex (r.metadatas.getD [[]]) 0 with
          | Except.error e => Except.error e
          | Except.ok metadatas =>
            chromaLoop threshold distances documents metadatas
              ids_list.length 0

/-- A concrete well-formed Chroma response used by the witness theorems:
two hits, distances 0 and 2 (similarities 1 and -1), the second with a
`None` metadata entry. -/
def respA : ChromaResponse :=
  { ids := some [["id0", "id1"]],
    distances := some [[0, 2]],
    documents := some [["alpha", "beta"]],
    metadatas := some [[some [("document_name", PyVal.pyStr "doc.pdf"),
                              ("chunk_id", PyVal.pyInt 0)], none]] }


/-- The responses the Milvus collaborator gives to the (at most one)
invocation of each of its operations during one search call:
`connections.connect`, `Collection(...)` + `collection.load()`, the
limit-1 config query, and `collection.search`. -/
structure MilvusStore : Type where
  connectR : Except PyError Unit
  loadR : Except PyError Unit
  queryR : Except PyError (List MilvusConfigRec)
  searchR : Except PyError (List (List MilvusHit))

/-- The collection object `client.get_collection` returns: its
`metadata` attribute may be `None`. -/
structure ChromaCollection : Type where
  metadata : Option (List (String × PyVal))
deriving DecidableEq

/-- The responses the Chroma collaborator gives during one search call:
`chromadb.PersistentClient`, `client.get_collection`, and
`collection.query`. -/
structure ChromaStore : Type where
  clientR : Except PyError Unit
  getCollectionR : Except PyError ChromaCollection
  queryR : Except PyError ChromaResponse

/-- One call to a collaborator: record the event, then either propagate
the collaborator's exception (ending the trace there) or continue. -/
def step {α β : Type} (ev : Event) (r : Except PyError α)
    (k : α → Except PyError β × List Event) :
    Except PyError β × List Event :=
  match r with
  | Except.ok a =>
    let p := k a
    (p.1, ev :: p.2)
  | Except.error e => (Except.error e, [ev])

/-- The `try` body of `_search_milvus` (lines 118-172): connect, load the
collection, run the limit-1 config query, raise `ValueError` on an empty
collection, embed the query with the resolved provider/model, run the
vector search with `limit=top_k` and the word-count filter, and process
the hits with the threshold. -/
def milvusBody (st : MilvusStore) (embedR : Except PyError (List ℚ))
    (query collection_id : String) (top_k : Nat) (threshold : ℚ)
    (word_count_threshold : Int) :
    Except PyError (List CanonicalHit) × List Event :=
  step (Event.connect "default" milvusUri) st.connectR fun _ =>
  step (Event.loadCollection collection_id) st.loadR fun _ =>
  step (Event.milvusQuery "id >= 0" ["embedding_provider", "embedding_model"] 1)
    st.queryR fun sample =>
  match sample with
  | [] =>
    (Except.error (PyError.valueError
      ("Collection " ++ collection_id ++ " is empty")), [])
  | rec :: _ =>
    step (Event.embedQuery query (PyVal.pyStr rec.embedding_provider)
      (PyVal.pyStr rec.embedding_model)) embedR fun _ =>
    step (Event.milvusSearch top_k
      ("word_count >= " ++ toString word_count_threshold)) st.searchR
      fun results =>
    (Except.ok (processMilvusHits results threshold), [])

/-- Function `_search_milvus` (lines 109-177): the `try` body with the bare
re-raising `except` (identity on the exception) and the `finally` that
always calls `connections.disconnect("default")`. -/
def searchMilvus (st : MilvusStore) (embedR : Except PyError (List ℚ))
    (query collection_id : String) (top_k : Nat) (threshold : ℚ)
    (word_count_threshold : Int) :
    Except PyError (List CanonicalHit) × List Event :=
  let p := milvusBody st embedR query collection_id top_k threshold
    word_count_threshold
  (p.1, p.2 ++ [Event.disconnect "default"])

/-- Function `_search_chroma` (lines 179-240): open the persistent client, get the
collection, read the embedding fingerprint from collection metadata with
`"unknown"` fallbacks, embed the query, run `collection.query` with
`n_results=top_k` and the word-count `where` filter, and process the
response.  The bare re-raising `except` is the identity; there is no
`finally` and no disconnect call. -/
def searchChroma (cs : ChromaStore) (embedR : Except PyError (List ℚ))
    (query collection_id : String) (top_k : Nat) (threshold : ℚ)
    (word_count_threshold : Int) :
    Except PyError (List CanonicalHit) × List Event :=
  step (Event.chromaClient chromaPersistDir) cs.clientR fun _ =>
  step (Event.chromaGetCollection collection_id) cs.getCollectionR fun col =>
  let col_meta := col.metadata.getD []
  let provider := pyDictGet col_meta "embedding_provider" (PyVal.pyStr "unknown")
  let model := pyDictGet col_meta "embedding_model" (PyVal.pyStr "unknown")
  step (Event.embedQuery query provider model) embedR fun _ =>
  step (Event.chromaQuery top_k word_count_threshold) cs.queryR fun results =>
  (processChromaHits results threshold, [])

/-- The provider dispatch of `search` (lines 269-274): run the matching
backend helper, or raise `ValueError("Unsupported provider: ...")` for
any other tag before touching any collaborator. -/
def searchBranch (ms : MilvusStore) (cs : ChromaStore)
    (embedR : Except PyError (List ℚ)) (query collection_id provider : String)
    (top_k : Nat) (threshold : ℚ) (word_count_threshold : Int) :
    Except PyError (List CanonicalHit) × List Event :=
  if provider = milvusTag then
    searchMilvus ms embedR query collection_id top_k threshold
      word_count_threshold
  else if provider = chromaTag then
    searchChroma cs embedR query collection_id top_k threshold
      word_count_threshold
  else
    (Except.error (PyError.valueError ("Unsupported provider: " ++ provider)),
     [])

/-- The response dict of `search`: `results` always, `saved_filepath`
when persisting succeeded, `save_error` when it failed. -/
structure SearchResponse : Type where
  results : List CanonicalHit
  saved_filepath : Option String
  save_error : Option String
deriving DecidableEq

/-- Function `search` (lines 242-286): dispatch on the provider, then, when
`save_results` is set and the result list is non-empty, call
`save_search_results` (the persistence collaborator, response `saveR`),
catching its failure into the `save_error` field instead of raising. -/
def searchService (ms : MilvusStore) (cs : ChromaStore)
    (embedR : Except PyError (List ℚ)) (saveR : Except PyError String)
    (query collection_id provider : String) (top_k : Nat) (threshold : ℚ)
    (word_count_threshold : Int) (save_results : Bool) :
    Except PyError SearchResponse × List Event :=
  match searchBranch ms cs embedR query collection_id provider top_k threshold
    word_count_threshold with
  | (Except.error e, tr) => (Except.error e, tr)
  | (Except.ok results, tr) =>
    if save_results && !results.isEmpty then
      match saveR with
      | Except.ok filepath =>
        (Except.ok { results := results, saved_filepath := some filepath,
                     save_error := none },
         tr ++ [Event.saveResults query collection_id])
      | Except.error e =>
        (Except.ok { results := results, saved_filepath := none,
                     save_error := some (PyError.str e) },
         tr ++ [Event.saveResults query collection_id])
    else
      (Except.ok { results := results, saved_filepath := none,
                   save_error := none }, tr)

/-- A Milvus store in which every operation succeeds, the config query
returns one record, and the vector search returns `hitA` and `hitB`. -/
def okMilvusStore : MilvusStore :=
  { connectR := Except.ok (),
    loadR := Except.ok (),
    queryR := Except.ok [{ embedding_provider := "openai",
                           embedding_model := "m" }],
    searchR := Except.ok [[hitA, hitB]] }

/-- A Milvus store whose vector search fails with a native error. -/
def failingMilvusStore : MilvusStore :=
  { okMilvusStore with
    searchR := Except.error (PyError.native "connection refused") }

/-- A Chroma store in which every operation succeeds and the query
returns `respA`. -/
def okChromaStore : ChromaStore :=
  { clientR := Except.ok (),
    getCollectionR := Except.ok
      { metadata := some [("embedding_provider", PyVal.pyStr "openai"),
                          ("embedding_model", PyVal.pyStr "m")] },
    queryR := Except.ok respA }


/-- The fixed key set (in literal order) of every canonical metadata
object, as listed in §3 of the spec. -/
def canonicalKeys : List String :=
  ["source", "page", "chunk", "total_chunks", "page_range",
   "embedding_provider", "embedding_model", "embedding_timestamp"]

/-- The value `cosine_sim` takes at index `i` when no subscript error
occurs: 0 for an empty distance list, `1 - distances[i]` otherwise. -/
def chromaSimAt (ds : List ℚ) (i : Nat) : ℚ :=
  if ds.isEmpty then 0 else 1 - ds.getD i 0

/-- The canonical record index `i` of a well-formed Chroma response
produces. -/
def chromaHitAt (ds : List ℚ) (docs : List String)
    (ms : List (Option (List (String × PyVal)))) (i : Nat) : CanonicalHit :=
  chromaBuildHit (chromaSimAt ds i) (docs.getD i "") (ms.getD i none)

/-- True exactly for an `Event` that invokes a store's vector search. -/
def Event.isVectorSearchCall : Event → Bool
  | Event.milvusSearch _ _ => true
  | Event.chromaQuery _ _ => true
  | _ => false

/-- True exactly for a disconnect event. -/
def Event.isDisconnect : Event → Bool
  | Event.disconnect _ => true
  | _ => false

/-- True exactly for a Milvus scalar `query` (the config lookup). -/
def Event.isConfigQuery : Event → Bool
  | Event.milvusQuery _ _ _ => true
  | _ => false

/-- The metadata column of `respA` (second entry is a `None` metadata). -/
def chromaMsA : List (Option (List (String × PyVal))) :=
  [some [("document_name", PyVal.pyStr "doc.pdf"),
         ("chunk_id", PyVal.pyInt 0)], none]
/-- The canonical record the Chroma branch produces from index 0 of
`respA` (distance 0, so similarity 1). -/
def chromaHit0 : CanonicalHit :=
  { text := "alpha", score := 1, metadata :=
      [("source", PyVal.pyStr "doc.pdf"), ("page", PyVal.pyStr ""),
       ("chunk", PyVal.pyInt 0), ("total_chunks", PyVal.pyInt 0),
       ("page_range", PyVal.pyStr ""),
       ("embedding_provider", PyVal.pyStr ""),
       ("embedding_model", PyVal.pyStr ""),
       ("embedding_timestamp", PyVal.pyStr "")] }
/-- A concrete Chroma response with one id but no distances. -/
def respNoDistances : ChromaResponse :=
  { ids := some [["id0"]],
    distances := some [[]],
    documents := some [["alpha"]],
    metadatas := some [[none]] }
/-- A Chroma store whose `collection.query` fails with a native error. -/
def failingChromaStore : ChromaStore :=
  { okChromaStore with
    queryR := Except.error (PyError.native "malformed query") }
/-- A Milvus store whose collection holds no record at all. -/
def emptyMilvusStore : MilvusStore :=
  { okMilvusStore with queryR := Except.ok [] }
lemma milvusCanonMeta_keys (h : MilvusHit) :
    (milvusCanonMeta h).map Prod.fst = canonicalKeys := rfl

lemma chromaCanonMeta_keys (m : List (String × PyVal)) :
    (chromaCanonMeta m).map Prod.fst = canonicalKeys := rfl

lemma mem_processMilvusHits {results : List (List MilvusHit)} {t : ℚ}
    {c : CanonicalHit} :
    c ∈ processMilvusHits results t ↔
      ∃ h, h ∈ results.flatten ∧ t ≤ h.score ∧ c = milvusToCanonical h := by
  simp only [processMilvusHits, List.mem_filterMap]
  constructor
  · rintro ⟨h, hm, hf⟩
    by_cases hs : t ≤ h.score
    · rw [if_pos hs] at hf
      exact ⟨h, hm, hs, (Option.some_inj.mp hf).symm⟩
    · rw [if_neg hs] at hf
      cases hf
  · rintro ⟨h, hm, hs, rfl⟩
    exact ⟨h, hm, by rw [if_pos hs]⟩

lemma chromaSimR_ok {ds : List ℚ} {i : Nat} (h : ds ≠ [] → i < ds.length) :
    chromaSimR ds i = Except.ok (chromaSimAt ds i) := by
  by_cases he : ds.isEmpty
  · simp [chromaSimR, chromaSimAt, he]
  · have hne : ds ≠ [] := fun hnil => he (by simp [hnil])
    have hi := h hne
    simp [chromaSimR, chromaSimAt, he, pyIndex, List.get?_eq_get hi,
      List.getD_eq_getElem?_getD, List.getElem?_eq_getElem hi]

lemma chromaLoop_ok_shape {t : ℚ} {ds : List ℚ} {docs : List String}
    {ms : List (Option (List (String × PyVal)))} :
    ∀ (k i : Nat) (l : List CanonicalHit),
      chromaLoop t ds docs ms k i = Except.ok l →
      ∀ c ∈ l, t ≤ c.score ∧ ∃ m, c.metadata = chromaCanonMeta m := by
  intro k
  induction k with
  | zero =>
    intro i l hl c hc
    simp only [chromaLoop] at hl
    cases hl
    cases hc
  | succ n ih =>
    intro i l hl c hc
    simp only [chromaLoop] at hl
    cases hsim : chromaSimR ds i with
    | error e => simp [hsim] at hl
    | ok sim =>
      simp only [hsim] at hl
      by_cases hlt : sim < t
      · rw [if_pos hlt] at hl
        exact ih (i + 1) l hl c hc
      · rw [if_neg hlt] at hl
        cases hdoc : pyIndex docs i with
        | error e => simp [hdoc] at hl
        | ok doc =>
          simp only [hdoc] at hl
          cases hmo : pyIndex ms i with
          | error e => simp [hmo] at hl
          | ok mo =>
            simp only [hmo] at hl
            cases hrest : chromaLoop t ds docs ms n (i + 1) with
            | error e => simp [hrest] at hl
            | ok rest =>
              simp only [hrest] at hl
              cases hl
              rcases List.mem_cons.mp hc with hc | hc
              · subst hc
                exact ⟨not_lt.mp hlt, mo.getD [], rfl⟩
              · exact ih (i + 1) rest hrest c hc

lemma chromaLoop_length {t : ℚ} {ds : List ℚ} {docs : List String}
    {ms : List (Option (List (String × PyVal)))} :
    ∀ (k i : Nat) (l : List CanonicalHit),
      chromaLoop t ds docs ms k i = Except.ok l → l.length ≤ k := by
  intro k
  induction k with
  | zero =>
    intro i l hl
    simp only [chromaLoop] at hl
    cases hl
    exact Nat.le_refl 0
  | succ n ih =>
    intro i l hl
    simp only [chromaLoop] at hl
    cases hsim : chromaSimR ds i with
    | error e => simp [hsim] at hl
    | ok sim =>
      simp only [hsim] at hl
      by_cases hlt : sim < t
      · rw [if_pos hlt] at hl
        exact Nat.le_succ_of_le (ih (i + 1) l hl)
      · rw [if_neg hlt] at hl
        cases hdoc : pyIndex docs i with
        | error e => simp [hdoc] at hl
        | ok doc =>
          simp only [hdoc] at hl
          cases hmo : pyIndex ms i with
          | error e => simp [hmo] at hl
          | ok mo =>
            simp only [hmo] at hl
            cases hrest : chromaLoop t ds docs ms n (i + 1) with
            | error e => simp [hrest] at hl
            | ok rest =>
              simp only [hrest] at hl
              cases hl
              simpa using Nat.succ_le_succ (ih (i + 1) rest hrest)

lemma chromaLoop_empty_ds {t : ℚ} (ht : 0 < t) {docs : List String}
    {ms : List (Option (List (String × PyVal)))} :
    ∀ (k i : Nat), chromaLoop t [] docs ms k i = Except.ok [] := by
  intro k
  induction k with
  | zero => intro i; simp [chromaLoop]
  | succ n ih =>
    intro i
    have hsim : chromaSimR [] i = Except.ok 0 := by simp [chromaSimR]
    simp only [chromaLoop, hsim, if_pos ht]
    exact ih (i + 1)

lemma chromaLoop_subset {t1 t2 : ℚ} (h12 : t1 ≤ t2) {ds : List ℚ}
    {docs : List String} {ms : List (Option (List (String × PyVal)))} :
    ∀ (k i : Nat) (l1 l2 : List CanonicalHit),
      chromaLoop t1 ds docs ms k i = Except.ok l1 →
      chromaLoop t2 ds docs ms k i = Except.ok l2 →
      ∀ c ∈ l2, c ∈ l1 := by
  intro k
  induction k with
  | zero =>
    intro i l1 l2 h1 h2 c hc
    simp only [chromaLoop] at h2
    cases h2
    cases hc
  | succ n ih =>
    intro i l1 l2 h1 h2 c hc
    simp only [chromaLoop] at h1 h2
    cases hsim : chromaSimR ds i with
    | error e => simp [hsim] at h1
    | ok sim =>
      simp only [hsim] at h1 h2
      by_cases hlt1 : sim < t1
      · rw [if_pos hlt1] at h1
        rw [if_pos (lt_of_lt_of_le hlt1 h12)] at h2
        exact ih (i + 1) l1 l2 h1 h2 c hc
      · rw [if_neg hlt1] at h1
        cases hdoc : pyIndex docs i with
        | error e => simp [hdoc] at h1
        | ok doc =>
          simp only [hdoc] at h1 h2
          cases hmo : pyIndex ms i with
          | error e => simp [hmo] at h1
          | ok mo =>
            simp only [hmo] at h1 h2
            cases hrest1 : chromaLoop t1 ds docs ms n (i + 1) with
            | error e => simp [hrest1] at h1
            | ok rest1 =>
              simp only [hrest1] at h1
              cases h1
              by_cases hlt2 : sim < t2
              · rw [if_pos hlt2] at h2
                exact List.mem_cons_of_mem _ (ih (i + 1) rest1 l2 hrest1 h2 c hc)
              · rw [if_neg hlt2] at h2
                cases hrest2 : chromaLoop t2 ds docs ms n (i + 1) with
                | error e => simp [hrest2] at h2
                | ok rest2 =>
                  simp only [hrest2] at h2
                  cases h2
                  rcases List.mem_cons.mp hc with hc | hc
                  · exact hc ▸ List.mem_cons_self _ _
                  · exact List.mem_cons_of_mem _
                      (ih (i + 1) rest1 rest2 hrest1 hrest2 c hc)

lemma chromaLoop_closed {t : ℚ} {ds : List ℚ} {docs : List String}
    {ms : List (Option (List (String × PyVal)))} :
    ∀ (k i : Nat), (ds ≠ [] → i + k ≤ ds.length) → i + k ≤ docs.length →
      i + k ≤ ms.length →
      chromaLoop t ds docs ms k i =
        Except.ok (((List.range' i k).filter
          (fun j => decide (t ≤ chromaSimAt ds j))).map (chromaHitAt ds docs ms)) := by
  intro k
  induction k with
  | zero => intro i _ _ _; simp [chromaLoop]
  | succ n ih =>
    intro i hds hdocs hms
    have hi_ds : ds ≠ [] → i < ds.length := fun h =>
      Nat.lt_of_lt_of_le (Nat.lt_add_of_pos_right (Nat.succ_pos n)) (hds h)
    have hi_docs : i < docs.length :=
      Nat.lt_of_lt_of_le (Nat.lt_add_of_pos_right (Nat.succ_pos n)) hdocs
    have hi_ms : i < ms.length :=
      Nat.lt_of_lt_of_le (Nat.lt_add_of_pos_right (Nat.succ_pos n)) hms
    have hsim := chromaSimR_ok hi_ds
    have hd : pyIndex docs i = Except.ok (docs.getD i "") := by
      simp [pyIndex, List.getD_eq_getElem?_getD, List.get?_eq_getElem?,
        List.getElem?_eq_getElem hi_docs]
    have hm : pyIndex ms i = Except.ok (ms.getD i none) := by
      simp [pyIndex, List.getD_eq_getElem?_getD, List.get?_eq_getElem?,
        List.getElem?_eq_getElem hi_ms]
    have hih := ih (i + 1) (fun h => by have := hds h; omega) (by omega) (by omega)
    simp only [chromaLoop, hsim]
    rw [List.range'_succ, List.filter_cons]
    by_cases hlt : chromaSimAt ds i < t
    · rw [if_pos hlt, hih, if_neg (by simpa using not_le.mpr hlt)]
    · rw [if_neg hlt]
      simp only [hd, hm, hih]
      rw [if_pos (by simpa using not_lt.mp hlt)]
      rfl

lemma processChromaHits_ok_shape {r : ChromaResponse} {t : ℚ}
    {l : List CanonicalHit} (h : processChromaHits r t = Except.ok l) :
    ∀ c ∈ l, t ≤ c.score ∧ ∃ m, c.metadata = chromaCanonMeta m := by
  simp only [processChromaHits] at h
  cases hids : pyIndex (r.ids.getD [[]]) 0 with
  | error e => simp [hids] at h
  | ok ids =>
    simp only [hids] at h
    by_cases hemp : ids.isEmpty
    · rw [if_pos hemp] at h
      cases h
      intro c hc
      cases hc
    · rw [if_neg hemp] at h
      cases hds : pyIndex (r.distances.getD [[]]) 0 with
      | error e => simp [hds] at h
      | ok ds =>
        simp only [hds] at h
        cases hdocs : pyIndex (r.documents.getD [[]]) 0 with
        | error e => simp [hdocs] at h
        | ok docs =>
          simp only [hdocs] at h
          cases hms : pyIndex (r.metadatas.getD [[]]) 0 with
          | error e => simp [hms] at h
          | ok ms =>
            simp only [hms] at h
            exact chromaLoop_ok_shape ids.length 0 l h

lemma processChromaHits_subset {r : ChromaResponse} {t1 t2 : ℚ} (h12 : t1 ≤ t2)
    {l1 l2 : List CanonicalHit} (h1 : processChromaHits r t1 = Except.ok l1)
    (h2 : processChromaHits r t2 = Except.ok l2) : ∀ c ∈ l2, c ∈ l1 := by
  simp only [processChromaHits] at h1 h2
  cases hids : pyIndex (r.ids.getD [[]]) 0 with
  | error e => simp [hids] at h1
  | ok ids =>
    simp only [hids] at h1 h2
    by_cases hemp : ids.isEmpty
    · rw [if_pos hemp] at h2
      cases h2
      intro c hc
      cases hc
    · rw [if_neg hemp] at h1 h2
      cases hds : pyIndex (r.distances.getD [[]]) 0 with
      | error e => simp [hds] at h1
      | ok ds =>
        simp only [hds] at h1 h2
        cases hdocs : pyIndex (r.documents.getD [[]]) 0 with
        | error e => simp [hdocs] at h1
        | ok docs =>
          simp only [hdocs] at h1 h2
          cases hms : pyIndex (r.metadatas.getD [[]]) 0 with
          | error e => simp [hms] at h1
          | ok ms =>
            simp only [hms] at h1 h2
            exact chromaLoop_subset h12 ids.length 0 l1 l2 h1 h2

lemma processChromaHits_length {r : ChromaResponse} {t : ℚ}
    {l : List CanonicalHit} (h : processChromaHits r t = Except.ok l) :
    ∃ ids, pyIndex (r.ids.getD [[]]) 0 = Except.ok ids ∧
      l.length ≤ ids.length := by
  simp only [processChromaHits] at h
  cases hids : pyIndex (r.ids.getD [[]]) 0 with
  | error e => simp [hids] at h
  | ok ids =>
    refine ⟨ids, rfl, ?_⟩
    simp only [hids] at h
    by_cases hemp : ids.isEmpty
    · rw [if_pos hemp] at h
      cases h
      exact Nat.zero_le _
    · rw [if_neg hemp] at h
      cases hds : pyIndex (r.distances.getD [[]]) 0 with
      | error e => simp [hds] at h
      | ok ds =>
        simp only [hds] at h
        cases hdocs : pyIndex (r.documents.getD [[]]) 0 with
        | error e => simp [hdocs] at h
        | ok docs =>
          simp only [hdocs] at h
          cases hms : pyIndex (r.metadatas.getD [[]]) 0 with
          | error e => simp [hms] at h
          | ok ms =>
            simp only [hms] at h
            exact chromaLoop_length ids.length 0 l h

lemma searchMilvus_ok {st : MilvusStore} {embedR : Except PyError (List ℚ)}
    {q cid : String} {k : Nat} {t : ℚ} {w : Int} {res : List CanonicalHit}
    {tr : List Event}
    (h : searchMilvus st embedR q cid k t w = (Except.ok res, tr)) :
    ∃ rs, st.searchR = Except.ok rs ∧ res = processMilvusHits rs t := by
  simp only [searchMilvus, milvusBody, step] at h
  cases hc : st.connectR with
  | error e => simp [hc] at h
  | ok u =>
    simp only [hc] at h
    cases hl : st.loadR with
    | error e => simp [hl] at h
    | ok u2 =>
      simp only [hl] at h
      cases hq : st.queryR with
      | error e => simp [hq] at h
      | ok sample =>
        simp only [hq] at h
        cases sample with
        | nil => simp at h
        | cons rec rest =>
          cases he : embedR with
          | error e => simp [he] at h
          | ok v =>
            simp only [he] at h
            cases hs : st.searchR with
            | error e => simp [hs] at h
            | ok rs =>
              simp only [hs, Prod.mk.injEq, Except.ok.injEq] at h
              exact ⟨rs, rfl, h.1.symm⟩

lemma searchChroma_ok {cs : ChromaStore} {embedR : Except PyError (List ℚ)}
    {q cid : String} {k : Nat} {t : ℚ} {w : Int} {res : List CanonicalHit}
    {tr : List Event}
    (h : searchChroma cs embedR q cid k t w = (Except.ok res, tr)) :
    ∃ resp, cs.queryR = Except.ok resp ∧
      processChromaHits resp t = Except.ok res := by
  simp only [searchChroma, step] at h
  cases hc : cs.clientR with
  | error e => simp [hc] at h
  | ok u =>
    simp only [hc] at h
    cases hg : cs.getCollectionR with
    | error e => simp [hg] at h
    | ok col =>
      simp only [hg] at h
      cases he : embedR with
      | error e => simp [he] at h
      | ok v =>
        simp only [he] at h
        cases hq : cs.queryR with
        | error e => simp [hq] at h
        | ok resp =>
          simp only [hq, Prod.mk.injEq] at h
          exact ⟨resp, rfl, h.1⟩

lemma searchMilvus_trace_last (st : MilvusStore)
    (embedR : Except PyError (List ℚ)) (q cid : String) (k : Nat) (t : ℚ)
    (w : Int) :
    (searchMilvus st embedR q cid k t w).2.getLast? =
      some (Event.disconnect "default") := by
  simp only [searchMilvus]
  exact List.getLast?_concat _

lemma searchChroma_no_disconnect (cs : ChromaStore)
    (embedR : Except PyError (List ℚ)) (q cid : String) (k : Nat) (t : ℚ)
    (w : Int) :
    (searchChroma cs embedR q cid k t w).2.countP Event.isDisconnect = 0 := by
  simp only [searchChroma, step]
  cases cs.clientR with
  | error e => simp [Event.isDisconnect]
  | ok u =>
    cases cs.getCollectionR with
    | error e => simp [Event.isDisconnect]
    | ok col =>
      cases embedR with
      | error e => simp [Event.isDisconnect]
      | ok v =>
        cases cs.queryR with
        | error e => simp [Event.isDisconnect]
        | ok resp => simp [Event.isDisconnect]

lemma searchMilvus_vs_once (st : MilvusStore)
    (embedR : Except PyError (List ℚ)) (q cid : String) (k : Nat) (t : ℚ)
    (w : Int) :
    (searchMilvus st embedR q cid k t w).2.countP Event.isVectorSearchCall ≤ 1 := by
  simp only [searchMilvus, milvusBody, step]
  cases st.connectR with
  | error e => simp [Event.isVectorSearchCall]
  | ok u =>
    cases st.loadR with
    | error e => simp [Event.isVectorSearchCall]
    | ok u2 =>
      cases st.queryR with
      | error e => simp [Event.isVectorSearchCall]
      | ok sample =>
        cases sample with
        | nil => simp [Event.isVectorSearchCall]
        | cons rec rest =>
          cases embedR with
          | error e => simp [Event.isVectorSearchCall]
          | ok v =>
            cases st.searchR with
            | error e => simp [Event.isVectorSearchCall]
            | ok rs => simp [Event.isVectorSearchCall]

lemma searchChroma_vs_once (cs : ChromaStore)
    (embedR : Except PyError (List ℚ)) (q cid : String) (k : Nat) (t : ℚ)
    (w : Int) :
    (searchChroma cs embedR q cid k t w).2.countP Event.isVectorSearchCall ≤ 1 := by
  simp only [searchChroma, step]
  cases cs.clientR with
  | error e => simp [Event.isVectorSearchCall]
  | ok u =>
    cases cs.getCollectionR with
    | error e => simp [Event.isVectorSearchCall]
    | ok col =>
      cases embedR with
      | error e => simp [Event.isVectorSearchCall]
      | ok v =>
        cases cs.queryR with
        | error e => simp [Event.isVectorSearchCall]
        | ok resp => simp [Event.isVectorSearchCall]

lemma searchMilvus_configQuery_filter (st : MilvusStore)
    (embedR : Except PyError (List ℚ)) (q cid : String) (k : Nat) (t : ℚ)
    (w : Int) :
    (searchMilvus st embedR q cid k t w).2.filter Event.isConfigQuery = [] ∨
    (searchMilvus st embedR q cid k t w).2.filter Event.isConfigQuery =
      [Event.milvusQuery "id >= 0" ["embedding_provider", "embedding_model"] 1] := by
  simp only [searchMilvus, milvusBody, step]
  cases st.connectR with
  | error e => left; simp [Event.isConfigQuery]
  | ok u =>
    cases st.loadR with
    | error e => left; simp [Event.isConfigQuery]
    | ok u2 =>
      cases st.queryR with
      | error e => right; simp [Event.isConfigQuery]
      | ok sample =>
        cases sample with
        | nil => right; simp [Event.isConfigQuery]
        | cons rec rest =>
          cases embedR with
          | error e => right; simp [Event.isConfigQuery]
          | ok v =>
            cases st.searchR with
            | error e => right; simp [Event.isConfigQuery]
            | ok rs => right; simp [Event.isConfigQuery]

lemma searchMilvus_configQuery_reached {st : MilvusStore}
    {embedR : Except PyError (List ℚ)} {q cid : String} {k : Nat} {t : ℚ}
    {w : Int} (hc : st.connectR = Except.ok ()) (hl : st.loadR = Except.ok ()) :
    (searchMilvus st embedR q cid k t w).2.filter Event.isConfigQuery =
      [Event.milvusQuery "id >= 0" ["embedding_provider", "embedding_model"] 1] := by
  simp only [searchMilvus, milvusBody, step, hc, hl]
  cases st.queryR with
  | error e => simp [Event.isConfigQuery]
  | ok sample =>
    cases sample with
    | nil => simp [Event.isConfigQuery]
    | cons rec rest =>
      cases embedR with
      | error e => simp [Event.isConfigQuery]
      | ok v =>
        cases st.searchR with
        | error e => simp [Event.isConfigQuery]
        | ok rs => simp [Event.isConfigQuery]

lemma searchMilvus_connect_error {st : MilvusStore}
    {embedR : Except PyError (List ℚ)} {q cid : String} {k : Nat} {t : ℚ}
    {w : Int} {e : PyError} (hc : st.connectR = Except.error e) :
    (searchMilvus st embedR q cid k t w).1 = Except.error e := by
  simp [searchMilvus, milvusBody, step, hc]

lemma searchMilvus_load_error {st : MilvusStore}
    {embedR : Except PyError (List ℚ)} {q cid : String} {k : Nat} {t : ℚ}
    {w : Int} {e : PyError} (hc : st.connectR = Except.ok ())
    (hl : st.loadR = Except.error e) :
    (searchMilvus st embedR q cid k t w).1 = Except.error e := by
  simp [searchMilvus, milvusBody, step, hc, hl]

lemma searchMilvus_query_error {st : MilvusStore}
    {embedR : Except PyError (List ℚ)} {q cid : String} {k : Nat} {t : ℚ}
    {w : Int} {e : PyError} (hc : st.connectR = Except.ok ())
    (hl : st.loadR = Except.ok ()) (hq : st.queryR = Except.error e) :
    (searchMilvus st embedR q cid k t w).1 = Except.error e := by
  simp [searchMilvus, milvusBody, step, hc, hl, hq]

lemma searchMilvus_search_error {st : MilvusStore}
    {embedR : Except PyError (List ℚ)} {q cid : String} {k : Nat} {t : ℚ}
    {w : Int} {e : PyError} {rec : MilvusConfigRec} {rest : List MilvusConfigRec}
    {v : List ℚ} (hc : st.connectR = Except.ok ())
    (hl : st.loadR = Except.ok ()) (hq : st.queryR = Except.ok (rec :: rest))
    (he : embedR = Except.ok v) (hs : st.searchR = Except.error e) :
    (searchMilvus st embedR q cid k t w).1 = Except.error e := by
  simp [searchMilvus, milvusBody, step, hc, hl, hq, he, hs]

lemma searchChroma_client_error {cs : ChromaStore}
    {embedR : Except PyError (List ℚ)} {q cid : String} {k : Nat} {t : ℚ}
    {w : Int} {e : PyError} (hc : cs.clientR = Except.error e) :
    (searchChroma cs embedR q cid k t w).1 = Except.error e := by
  simp [searchChroma, step, hc]

lemma searchChroma_getCollection_error {cs : ChromaStore}
    {embedR : Except PyError (List ℚ)} {q cid : String} {k : Nat} {t : ℚ}
    {w : Int} {e : PyError} (hc : cs.clientR = Except.ok ())
    (hg : cs.getCollectionR = Except.error e) :
    (searchChroma cs embedR q cid k t w).1 = Except.error e := by
  simp [searchChroma, step, hc, hg]

lemma searchChroma_query_error {cs : ChromaStore}
    {embedR : Except PyError (List ℚ)} {q cid : String} {k : Nat} {t : ℚ}
    {w : Int} {e : PyError} {col : ChromaCollection} {v : List ℚ}
    (hc : cs.clientR = Except.ok ())
    (hg : cs.getCollectionR = Except.ok col) (he : embedR = Except.ok v)
    (hq : cs.queryR = Except.error e) :
    (searchChroma cs embedR q cid k t w).1 = Except.error e := by
  simp [searchChroma, step, hc, hg, he, hq]



/-- C1: on both backends the threshold filter keeps exactly the hits
whose canonical similarity is at least the threshold — a hit whose
similarity equals the threshold is kept (inclusive boundary), and every
hit strictly below it is dropped.  For Milvus this is stated by the two
membership directions over the processing loop; for Chroma, by a closed
form of the whole processing pass over any well-formed native response:
the output is exactly the indices whose similarity is `≥ t`, in order. -/
theorem claim_C1_threshold_filter :
    (∀ (results : List (List MilvusHit)) (t : ℚ) (h : MilvusHit),
       h ∈ results.flatten → t ≤ h.score →
       milvusToCanonical h ∈ processMilvusHits results t) ∧
    (∀ (results : List (List MilvusHit)) (t : ℚ) (c : CanonicalHit),
       c ∈ processMilvusHits results t → t ≤ c.score) ∧
    (∀ (r : ChromaResponse) (t : ℚ) (l : List CanonicalHit),
       processChromaHits r t = Except.ok l → ∀ c ∈ l, t ≤ c.score) ∧
    (∀ (r : ChromaResponse) (t : ℚ) (ids : List String) (ds : List ℚ)
       (docs : List String) (ms : List (Option (List (String × PyVal)))),
       pyIndex (r.ids.getD [[]]) 0 = Except.ok ids → ids ≠ [] →
       pyIndex (r.distances.getD [[]]) 0 = Except.ok ds →
       pyIndex (r.documents.getD [[]]) 0 = Except.ok docs →
       pyIndex (r.metadatas.getD [[]]) 0 = Except.ok ms →
       (ds ≠ [] → ids.length ≤ ds.length) → ids.length ≤ docs.length →
       ids.length ≤ ms.length →
       processChromaHits r t = Except.ok
         (((List.range' 0 ids.length).filter
           (fun j => decide (t ≤ chromaSimAt ds j))).map
             (chromaHitAt ds docs ms))) := by
  refine ⟨?_, ?_, ?_, ?_⟩
  · intro results t h hm hs
    exact mem_processMilvusHits.mpr ⟨h, hm, hs, rfl⟩
  · intro results t c hc
    rcases mem_processMilvusHits.mp hc with ⟨h, _, hs, rfl⟩
    exact hs
  · intro r t l h c hc
    exact (processChromaHits_ok_shape h c hc).1
  · intro r t ids ds docs ms hids hne hds hdocs hms hlds hldocs hlms
    simp only [processChromaHits, hids, hds, hdocs, hms]
    rw [if_neg (by simpa [List.isEmpty_iff] using hne)]
    exact chromaLoop_closed ids.length 0 (fun h => by simpa using hlds h)
      (by simpa using hldocs) (by simpa using hlms)

/-- Witness for C1 at concrete inputs: `hitA` sits exactly at the
threshold and is kept on the Milvus side; on the Chroma side the closed
form evaluates `respA` at threshold 1 to exactly the one hit with
similarity 1. -/
theorem claim_C1_threshold_filter_witness :
    milvusToCanonical hitA ∈ processMilvusHits [[hitA, hitB]] 1 ∧
    (1 : ℚ) ≤ (milvusToCanonical hitA).score ∧
    (∀ c ∈ [chromaHit0], (1 : ℚ) ≤ c.score) ∧
    processChromaHits respA 1 = Except.ok [chromaHit0] := by
  have h1 := claim_C1_threshold_filter.1 [[hitA, hitB]] 1 hitA (by simp)
    (by norm_num [hitA])
  have h4 := claim_C1_threshold_filter.2.2.2 respA 1 ["id0", "id1"] [0, 2]
    ["alpha", "beta"] chromaMsA rfl (by simp) rfl rfl rfl
    (fun _ => by decide) (by decide) (by decide)
  have h4' : processChromaHits respA 1 = Except.ok [chromaHit0] := by
    rw [h4]
    norm_num [List.range', List.filter_cons, chromaSimAt, chromaHitAt,
      chromaBuildHit, chromaCanonMeta, pyDictGet, List.lookup, chromaMsA,
      chromaHit0]
    decide
  have h3 := claim_C1_threshold_filter.2.2.1 respA 1 [chromaHit0] h4'
  have h2 := claim_C1_threshold_filter.2.1 [[hitA, hitB]] 1
    (milvusToCanonical hitA) h1
  exact ⟨h1, h2, h3, h4'⟩

/-- C2: for a fixed native result set, a larger threshold always yields
a subset of the results of a smaller one, on both backends (monotone
filtering). -/
theorem claim_C2_monotone_filter :
    ∀ (t1 t2 : ℚ), t1 < t2 →
      (∀ (results : List (List MilvusHit)) (c : CanonicalHit),
         c ∈ processMilvusHits results t2 → c ∈ processMilvusHits results t1) ∧
      (∀ (r : ChromaResponse) (l1 l2 : List CanonicalHit),
         processChromaHits r t1 = Except.ok l1 →
         processChromaHits r t2 = Except.ok l2 → ∀ c ∈ l2, c ∈ l1) := by
  intro t1 t2 h12
  constructor
  · intro results c hc
    rcases mem_processMilvusHits.mp hc with ⟨h, hm, hs, rfl⟩
    exact mem_processMilvusHits.mpr ⟨h, hm, le_trans (le_of_lt h12) hs, rfl⟩
  · intro r l1 l2 h1 h2
    exact processChromaHits_subset (le_of_lt h12) h1 h2

/-- Witness for C2 at `t1 = 0 < 1 = t2` on the concrete fixtures. -/
theorem claim_C2_monotone_filter_witness :
    milvusToCanonical hitA ∈ processMilvusHits [[hitA, hitB]] 0 ∧
    (∀ c ∈ [chromaHit0], c ∈ [chromaHit0]) := by
  have hm := (claim_C2_monotone_filter 0 1 (by norm_num)).1 [[hitA, hitB]]
    (milvusToCanonical hitA)
    (by norm_num [processMilvusHits, milvusToCanonical, milvusCanonMeta,
      hitA, hitB, List.filterMap_cons])
  have ht1 : processChromaHits respA 0 = Except.ok [chromaHit0] := by
    norm_num [processChromaHits, chromaLoop, chromaSimR, chromaBuildHit,
      pyIndex, respA, chromaCanonMeta, pyDictGet, List.lookup, chromaHit0]
    decide
  have ht2 : processChromaHits respA 1 = Except.ok [chromaHit0] := by
    norm_num [processChromaHits, chromaLoop, chromaSimR, chromaBuildHit,
      pyIndex, respA, chromaCanonMeta, pyDictGet, List.lookup, chromaHit0]
    decide
  exact ⟨hm, (claim_C2_monotone_filter 0 1 (by norm_num)).2 respA
    [chromaHit0] [chromaHit0] ht1 ht2⟩

/-- C5: every canonical hit either backend produces carries a metadata
object whose key list is exactly the fixed eight keys, and on the Chroma
side an entirely absent native metadata yields the documented defaults
(empty string or zero) instead of a failure. -/
theorem claim_C5_metadata_shape :
    (∀ (results : List (List MilvusHit)) (t : ℚ) (c : CanonicalHit),
       c ∈ processMilvusHits results t →
       c.metadata.map Prod.fst = canonicalKeys) ∧
    (∀ (r : ChromaResponse) (t : ℚ) (l : List CanonicalHit),
       processChromaHits r t = Except.ok l →
       ∀ c ∈ l, c.metadata.map Prod.fst = canonicalKeys) ∧
    chromaCanonMeta [] =
      [("source", PyVal.pyStr ""), ("page", PyVal.pyStr ""),
       ("chunk", PyVal.pyInt 0), ("total_chunks", PyVal.pyInt 0),
       ("page_range", PyVal.pyStr ""),
       ("embedding_provider", PyVal.pyStr ""),
       ("embedding_model", PyVal.pyStr ""),
       ("embedding_timestamp", PyVal.pyStr "")] := by
  refine ⟨?_, ?_, rfl⟩
  · intro results t c hc
    rcases mem_processMilvusHits.mp hc with ⟨h, _, _, rfl⟩
    exact milvusCanonMeta_keys h
  · intro r t l h c hc
    rcases (processChromaHits_ok_shape h c hc).2 with ⟨m, hm⟩
    rw [hm]
    exact chromaCanonMeta_keys m

/-- Witness for C5: the key lists of the concrete Milvus and Chroma
hits, the latter produced from a response whose second metadata entry is
`None` and whose first lacks most native fields. -/
theorem claim_C5_metadata_shape_witness :
    (milvusToCanonical hitA).metadata.map Prod.fst = canonicalKeys ∧
    (∀ c ∈ [chromaHit0], c.metadata.map Prod.fst = canonicalKeys) := by
  have h1 := claim_C5_metadata_shape.1 [[hitA, hitB]] 1 (milvusToCanonical hitA)
    (by norm_num [processMilvusHits, milvusToCanonical, milvusCanonMeta,
      hitA, hitB, List.filterMap_cons])
  have h4 : processChromaHits respA 1 = Except.ok [chromaHit0] := by
    norm_num [processChromaHits, chromaLoop, chromaSimR, chromaBuildHit,
      pyIndex, respA, chromaCanonMeta, pyDictGet, List.lookup, chromaHit0]
    decide
  exact ⟨h1, claim_C5_metadata_shape.2.1 respA 1 [chromaHit0] h4⟩

/-- C10: a Chroma response with a non-empty id list but an empty (inner)
distance list gives every hit similarity 0.0, so any positive threshold
filters everything out and the search returns an empty list without
error. -/
theorem claim_C10_empty_distances :
    ∀ (r : ChromaResponse) (t : ℚ) (ids : List String) (docs : List String)
      (ms : List (Option (List (String × PyVal)))),
      pyIndex (r.ids.getD [[]]) 0 = Except.ok ids → ids ≠ [] →
      pyIndex (r.distances.getD [[]]) 0 = Except.ok [] →
      pyIndex (r.documents.getD [[]]) 0 = Except.ok docs →
      pyIndex (r.metadatas.getD [[]]) 0 = Except.ok ms →
      0 < t →
      processChromaHits r t = Except.ok [] := by
  intro r t ids docs ms hids hne hds hdocs hms ht
  simp only [processChromaHits, hids, hds, hdocs, hms]
  rw [if_neg (by simpa [List.isEmpty_iff] using hne)]
  exact chromaLoop_empty_ds ht ids.length 0


/-- Witness for C10 on `respNoDistances` at threshold 1. -/
theorem claim_C10_empty_distances_witness :
    processChromaHits respNoDistances 1 = Except.ok [] :=
  claim_C10_empty_distances respNoDistances 1 ["id0"] ["alpha"] [none]
    rfl (by simp) rfl rfl rfl (by norm_num)

/-- C3: for a provider tag that is neither `"milvus"` nor `"chroma"`,
`search` fails with the unsupported-provider error (raised as
`ValueError("Unsupported provider: ...")` in the source) and performs no
partial work: the event trace is empty, so no backend is contacted, no
embedding is computed and nothing is persisted. -/
theorem claim_C3_unsupported_provider :
    ∀ (ms : MilvusStore) (cs : ChromaStore) (embedR : Except PyError (List ℚ))
      (saveR : Except PyError String) (q cid p : String) (k : Nat) (t : ℚ)
      (w : Int) (sv : Bool), p ≠ milvusTag → p ≠ chromaTag →
      searchService ms cs embedR saveR q cid p k t w sv =
        (Except.error (PyError.valueError ("Unsupported provider: " ++ p)),
         []) := by
  intro ms cs embedR saveR q cid p k t w sv hp1 hp2
  simp [searchService, searchBranch, hp1, hp2]

/-- Witness for C3 at the spec's Scenario B tag `"ftp"`. -/
theorem claim_C3_unsupported_provider_witness :
    searchService okMilvusStore okChromaStore (Except.ok [1]) (Except.ok "f")
      "q" "col" "ftp" 3 1 20 true =
      (Except.error (PyError.valueError "Unsupported provider: ftp"), []) :=
  claim_C3_unsupported_provider okMilvusStore okChromaStore (Except.ok [1])
    (Except.ok "f") "q" "col" "ftp" 3 1 20 true (by decide) (by decide)

/-- C4 counterexample: the source wraps nothing — a native store failure
(`connection refused` during the Milvus vector search) reaches the caller
as that very error, not as a generic `SearchBackendError` wrapper, so the
claim's wrapping assertion is false at this input. -/
theorem claim_C4_counterexample :
    (searchMilvus failingMilvusStore (Except.ok [1]) "q" "col" 3 1 20).1 =
      Except.error (PyError.native "connection refused") ∧
    PyError.isBackendWrapped (PyError.native "connection refused") = false := by
  constructor
  · exact searchMilvus_search_error rfl rfl rfl rfl rfl
  · rfl

/-- C4 as amended: any error the underlying store raises during a search
call propagates to the caller unchanged (the backend-specific error
itself, after logging; at every stage, on both backends), and the vector
search is never retried — each call's trace holds at most one
vector-search invocation. -/
theorem claim_C4_amended_error_propagation :
    (∀ (st : MilvusStore) (embedR : Except PyError (List ℚ)) (q cid : String)
       (k : Nat) (t : ℚ) (w : Int) (e : PyError),
       st.connectR = Except.error e →
       (searchMilvus st embedR q cid k t w).1 = Except.error e) ∧
    (∀ (st : MilvusStore) (embedR : Except PyError (List ℚ)) (q cid : String)
       (k : Nat) (t : ℚ) (w : Int) (e : PyError),
       st.connectR = Except.ok () → st.loadR = Except.error e →
       (searchMilvus st embedR q cid k t w).1 = Except.error e) ∧
    (∀ (st : MilvusStore) (embedR : Except PyError (List ℚ)) (q cid : String)
       (k : Nat) (t : ℚ) (w : Int) (e : PyError),
       st.connectR = Except.ok () → st.loadR = Except.ok () →
       st.queryR = Except.error e →
       (searchMilvus st embedR q cid k t w).1 = Except.error e) ∧
    (∀ (st : MilvusStore) (embedR : Except PyError (List ℚ)) (q cid : String)
       (k : Nat) (t : ℚ) (w : Int) (e : PyError) (rec : MilvusConfigRec)
       (rest : List MilvusConfigRec) (v : List ℚ),
       st.connectR = Except.ok () → st.loadR = Except.ok () →
       st.queryR = Except.ok (rec :: rest) → embedR = Except.ok v →
       st.searchR = Except.error e →
       (searchMilvus st embedR q cid k t w).1 = Except.error e) ∧
    (∀ (cs : ChromaStore) (embedR : Except PyError (List ℚ)) (q cid : String)
       (k : Nat) (t : ℚ) (w : Int) (e : PyError),
       cs.clientR = Except.error e →
       (searchChroma cs embedR q cid k t w).1 = Except.error e) ∧
    (∀ (cs : ChromaStore) (embedR : Except PyError (List ℚ)) (q cid : String)
       (k : Nat) (t : ℚ) (w : Int) (e : PyError),
       cs.clientR = Except.ok () → cs.getCollectionR = Except.error e →
       (searchChroma cs embedR q cid k t w).1 = Except.error e) ∧
    (∀ (cs : ChromaStore) (embedR : Except PyError (List ℚ)) (q cid : String)
       (k : Nat) (t : ℚ) (w : Int) (e : PyError) (col : ChromaCollection)
       (v : List ℚ),
       cs.clientR = Except.ok () → cs.getCollectionR = Except.ok col →
       embedR = Except.ok v → cs.queryR = Except.error e →
       (searchChroma cs embedR q cid k t w).1 = Except.error e) ∧
    (∀ (st : MilvusStore) (embedR : Except PyError (List ℚ)) (q cid : String)
       (k : Nat) (t : ℚ) (w : Int),
       (searchMilvus st embedR q cid k t w).2.countP
         Event.isVectorSearchCall ≤ 1) ∧
    (∀ (cs : ChromaStore) (embedR : Except PyError (List ℚ)) (q cid : String)
       (k : Nat) (t : ℚ) (w : Int),
       (searchChroma cs embedR q cid k t w).2.countP
         Event.isVectorSearchCall ≤ 1) := by
  exact ⟨fun _ _ _ _ _ _ _ _ hc => searchMilvus_connect_error hc,
    fun _ _ _ _ _ _ _ _ hc hl => searchMilvus_load_error hc hl,
    fun _ _ _ _ _ _ _ _ hc hl hq => searchMilvus_query_error hc hl hq,
    fun _ _ _ _ _ _ _ _ _ _ _ hc hl hq he hs =>
      searchMilvus_search_error hc hl hq he hs,
    fun _ _ _ _ _ _ _ _ hc => searchChroma_client_error hc,
    fun _ _ _ _ _ _ _ _ hc hg => searchChroma_getCollection_error hc hg,
    fun _ _ _ _ _ _ _ _ _ _ hc hg he hq =>
      searchChroma_query_error hc hg he hq,
    searchMilvus_vs_once, searchChroma_vs_once⟩


/-- Witness for the amended C4 at concrete failing stores. -/
theorem claim_C4_amended_error_propagation_witness :
    (searchMilvus { okMilvusStore with
        connectR := Except.error (PyError.native "connection refused") }
      (Except.ok [1]) "q" "col" 3 1 20).1 =
      Except.error (PyError.native "connection refused") ∧
    (searchMilvus failingMilvusStore (Except.ok [1]) "q" "col" 3 1 20).1 =
      Except.error (PyError.native "connection refused") ∧
    (searchChroma failingChromaStore (Except.ok [1]) "q" "col" 3 1 20).1 =
      Except.error (PyError.native "malformed query") ∧
    (searchMilvus failingMilvusStore (Except.ok [1]) "q" "col" 3 1 20).2.countP
      Event.isVectorSearchCall ≤ 1 ∧
    (searchChroma failingChromaStore (Except.ok [1]) "q" "col" 3 1 20).2.countP
      Event.isVectorSearchCall ≤ 1 :=
  ⟨claim_C4_amended_error_propagation.1 _ (Except.ok [1]) "q" "col" 3 1 20 _
      rfl,
   claim_C4_amended_error_propagation.2.2.2.1 _ (Except.ok [1]) "q" "col" 3 1
      20 _ { embedding_provider := "openai", embedding_model := "m" } [] [1]
      rfl rfl rfl rfl rfl,
   claim_C4_amended_error_propagation.2.2.2.2.2.2.1 _ (Except.ok [1]) "q"
      "col" 3 1 20 _ { metadata := some [("embedding_provider",
        PyVal.pyStr "openai"), ("embedding_model", PyVal.pyStr "m")] } [1]
      rfl rfl rfl rfl,
   claim_C4_amended_error_propagation.2.2.2.2.2.2.2.1 _ (Except.ok [1]) "q"
      "col" 3 1 20,
   claim_C4_amended_error_propagation.2.2.2.2.2.2.2.2 _ (Except.ok [1]) "q"
      "col" 3 1 20⟩

/-- C6 counterexample: a successful Chroma search call opens the
persistent client (the trace records the connection) but its trace
contains no disconnect event at all — the Chroma path of the source has
no `finally`/disconnect — refuting "disconnected on every exit path" for
that backend. -/
theorem claim_C6_counterexample :
    (searchChroma okChromaStore (Except.ok [1]) "q" "col" 3 1 20).2 =
      [Event.chromaClient chromaPersistDir, Event.chromaGetCollection "col",
       Event.embedQuery "q" (PyVal.pyStr "openai") (PyVal.pyStr "m"),
       Event.chromaQuery 3 20] ∧
    (searchChroma okChromaStore (Except.ok [1]) "q" "col" 3 1 20).2.countP
      Event.isDisconnect = 0 ∧
    (searchChroma okChromaStore (Except.ok [1]) "q" "col" 3 1 20).1 =
      Except.ok [chromaHit0] := by
  refine ⟨?_, ?_, ?_⟩
  · norm_num [searchChroma, step, okChromaStore, pyDictGet, List.lookup]
    decide
  · norm_num [searchChroma, step, okChromaStore, List.countP_cons,
      Event.isDisconnect]
  · norm_num [searchChroma, step, okChromaStore, processChromaHits,
      chromaLoop, chromaSimR, chromaBuildHit, pyIndex, respA,
      chromaCanonMeta, pyDictGet, List.lookup, chromaHit0]
    decide

/-- C6 as amended: the Milvus helper disconnects on every exit path (its
trace always ends with the disconnect of the `finally` block, whether the
call succeeded, returned nothing, or raised), while the Chroma helper
never performs any disconnect. -/
theorem claim_C6_amended_scoped_connection :
    (∀ (st : MilvusStore) (embedR : Except PyError (List ℚ)) (q cid : String)
       (k : Nat) (t : ℚ) (w : Int),
       (searchMilvus st embedR q cid k t w).2.getLast? =
         some (Event.disconnect "default")) ∧
    (∀ (cs : ChromaStore) (embedR : Except PyError (List ℚ)) (q cid : String)
       (k : Nat) (t : ℚ) (w : Int),
       (searchChroma cs embedR q cid k t w).2.countP
         Event.isDisconnect = 0) :=
  ⟨searchMilvus_trace_last, searchChroma_no_disconnect⟩

lemma pyIndex_ok {α : Type} {l : List α} {i : Nat} {a : α} :
    pyIndex l i = Except.ok a ↔ l.get? i = some a := by
  unfold pyIndex
  cases h : l.get? i <;> simp

/-- C7: when the store honours the `top_k` limit it is handed (at most
one hit list per query vector for Milvus, each of length at most `top_k`;
an id list of length at most `top_k` for Chroma), the canonical result
list of a successful search call has length at most `top_k` — the
threshold filter only shrinks it further. -/
theorem claim_C7_top_k_bound :
    (∀ (st : MilvusStore) (embedR : Except PyError (List ℚ)) (q cid : String)
       (k : Nat) (t : ℚ) (w : Int) (res : List CanonicalHit)
       (tr : List Event),
       (∀ rs, st.searchR = Except.ok rs →
         rs.length ≤ 1 ∧ ∀ hits ∈ rs, hits.length ≤ k) →
       searchMilvus st embedR q cid k t w = (Except.ok res, tr) →
       res.length ≤ k) ∧
    (∀ (cs : ChromaStore) (embedR : Except PyError (List ℚ)) (q cid : String)
       (k : Nat) (t : ℚ) (w : Int) (res : List CanonicalHit)
       (tr : List Event),
       (∀ resp, cs.queryR = Except.ok resp →
         ∀ ids ∈ resp.ids.getD [[]], ids.length ≤ k) →
       searchChroma cs embedR q cid k t w = (Except.ok res, tr) →
       res.length ≤ k) := by
  constructor
  · intro st embedR q cid k t w res tr hconf hrun
    rcases searchMilvus_ok hrun with ⟨rs, hs, rfl⟩
    rcases hconf rs hs with ⟨h1, h2⟩
    refine le_trans (List.length_filterMap_le _ _) ?_
    cases rs with
    | nil => simp
    | cons hits rest =>
      have hr : rest = [] := by
        simp only [List.length_cons] at h1
        exact List.length_eq_zero.mp (by omega)
      subst hr
      simp only [List.flatten_cons, List.flatten_nil, List.append_nil]
      exact h2 hits (List.mem_cons_self _ _)
  · intro cs embedR q cid k t w res tr hconf hrun
    rcases searchChroma_ok hrun with ⟨resp, hq, hproc⟩
    rcases processChromaHits_length hproc with ⟨ids, hids, hlen⟩
    have hmem : ids ∈ resp.ids.getD [[]] :=
      List.get?_mem (pyIndex_ok.mp hids)
    exact le_trans hlen (hconf resp hq ids hmem)

/-- Witness for C7: both concrete stores return 2 hits under
`top_k = 3`; the processed results have length at most 3. -/
theorem claim_C7_top_k_bound_witness :
    ([milvusToCanonical hitA] : List CanonicalHit).length ≤ 3 ∧
    ([chromaHit0] : List CanonicalHit).length ≤ 3 := by
  have hm : searchMilvus okMilvusStore (Except.ok [1]) "q" "col" 3 1 20 =
      (Except.ok [milvusToCanonical hitA],
       [Event.connect "default" milvusUri, Event.loadCollection "col",
        Event.milvusQuery "id >= 0"
          ["embedding_provider", "embedding_model"] 1,
        Event.embedQuery "q" (PyVal.pyStr "openai") (PyVal.pyStr "m"),
        Event.milvusSearch 3 "word_count >= 20",
        Event.disconnect "default"]) := by
    norm_num [searchMilvus, milvusBody, step, okMilvusStore,
      processMilvusHits, milvusToCanonical, milvusCanonMeta, hitA, hitB,
      List.filterMap_cons]
    decide
  have hc : searchChroma okChromaStore (Except.ok [1]) "q" "col" 3 1 20 =
      (Except.ok [chromaHit0],
       [Event.chromaClient chromaPersistDir, Event.chromaGetCollection "col",
        Event.embedQuery "q" (PyVal.pyStr "openai") (PyVal.pyStr "m"),
        Event.chromaQuery 3 20]) := by
    norm_num [searchChroma, step, okChromaStore, processChromaHits,
      chromaLoop, chromaSimR, chromaBuildHit, pyIndex, respA,
      chromaCanonMeta, pyDictGet, List.lookup, chromaHit0]
    decide
  constructor
  · refine claim_C7_top_k_bound.1 okMilvusStore (Except.ok [1]) "q" "col" 3 1
      20 _ _ ?_ hm
    intro rs h
    rw [show okMilvusStore.searchR = Except.ok [[hitA, hitB]] from rfl] at h
    cases h
    exact ⟨by decide, by intro hits hh; simp at hh; subst hh; decide⟩
  · refine claim_C7_top_k_bound.2 okChromaStore (Except.ok [1]) "q" "col" 3 1
      20 _ _ ?_ hc
    intro resp h
    rw [show okChromaStore.queryR = Except.ok respA from rfl] at h
    cases h
    intro ids hh
    simp [respA] at hh
    subst hh
    decide

/-- C8: the Milvus embedding-configuration lookup is a single bounded
query — every config-query event in any call's trace carries the exact
expression, the two embedding fields and `limit = 1`, at most one is ever
issued, exactly one once the collection is reached — and an empty
query result fails the call with the empty-collection error (raised as
`ValueError("Collection ... is empty")` in the source). -/
theorem claim_C8_config_query :
    (∀ (st : MilvusStore) (embedR : Except PyError (List ℚ)) (q cid : String)
       (k : Nat) (t : ℚ) (w : Int),
       (searchMilvus st embedR q cid k t w).2.filter Event.isConfigQuery =
         [] ∨
       (searchMilvus st embedR q cid k t w).2.filter Event.isConfigQuery =
         [Event.milvusQuery "id >= 0"
           ["embedding_provider", "embedding_model"] 1]) ∧
    (∀ (st : MilvusStore) (embedR : Except PyError (List ℚ)) (q cid : String)
       (k : Nat) (t : ℚ) (w : Int),
       st.connectR = Except.ok () → st.loadR = Except.ok () →
       (searchMilvus st embedR q cid k t w).2.filter Event.isConfigQuery =
         [Event.milvusQuery "id >= 0"
           ["embedding_provider", "embedding_model"] 1]) ∧
    (∀ (st : MilvusStore) (embedR : Except PyError (List ℚ)) (q cid : String)
       (k : Nat) (t : ℚ) (w : Int),
       st.connectR = Except.ok () → st.loadR = Except.ok () →
       st.queryR = Except.ok [] →
       (searchMilvus st embedR q cid k t w).1 =
         Except.error (PyError.valueError
           ("Collection " ++ cid ++ " is empty"))) := by
  refine ⟨searchMilvus_configQuery_filter, ?_, ?_⟩
  · intro st embedR q cid k t w hc hl
    exact searchMilvus_configQuery_reached hc hl
  · intro st embedR q cid k t w hc hl hq
    simp [searchMilvus, milvusBody, step, hc, hl, hq]


/-- Witness for C8 on a store with an empty collection. -/
theorem claim_C8_config_query_witness :
    (searchMilvus emptyMilvusStore (Except.ok [1]) "q" "col" 3 1 20).2.filter
      Event.isConfigQuery =
      [Event.milvusQuery "id >= 0"
        ["embedding_provider", "embedding_model"] 1] ∧
    (searchMilvus emptyMilvusStore (Except.ok [1]) "q" "col" 3 1 20).1 =
      Except.error (PyError.valueError "Collection col is empty") := by
  constructor
  · exact claim_C8_config_query.2.1 emptyMilvusStore (Except.ok [1]) "q" "col"
      3 1 20 rfl rfl
  · have h := claim_C8_config_query.2.2 emptyMilvusStore (Except.ok [1]) "q"
      "col" 3 1 20 rfl rfl rfl
    simpa using h

/-- C9: when `save_results` is set and the canonical result list is
non-empty, a failing persistence collaborator never fails the search —
the response still carries the full results plus a `save_error` field and
no exception reaches the caller — while a successful persistence adds the
saved file path instead. -/
theorem claim_C9_save_isolation :
    ∀ (ms : MilvusStore) (cs : ChromaStore) (embedR : Except PyError (List ℚ))
      (q cid p : String) (k : Nat) (t : ℚ) (w : Int)
      (l : List CanonicalHit) (tr : List Event),
      searchBranch ms cs embedR q cid p k t w = (Except.ok l, tr) → l ≠ [] →
      (∀ e : PyError,
        searchService ms cs embedR (Except.error e) q cid p k t w true =
          (Except.ok { results := l, saved_filepath := none,
                       save_error := some (PyError.str e) },
           tr ++ [Event.saveResults q cid])) ∧
      (∀ fp : String,
        searchService ms cs embedR (Except.ok fp) q cid p k t w true =
          (Except.ok { results := l, saved_filepath := some fp,
                       save_error := none },
           tr ++ [Event.saveResults q cid])) := by
  intro ms cs embedR q cid p k t w l tr hb hl
  have hne : l.isEmpty = false := by
    cases l with
    | nil => exact absurd rfl hl
    | cons a as => rfl
  constructor
  · intro e
    simp [searchService, hb, hne]
  · intro fp
    simp [searchService, hb, hne]

/-- Witness for C9: the concrete Milvus pipeline returns one hit; a
failing save (`disk full`) is reported in `save_error` with the results
intact, a succeeding one adds the file path. -/
theorem claim_C9_save_isolation_witness :
    searchService okMilvusStore okChromaStore (Except.ok [1])
      (Except.error (PyError.native "disk full")) "q" "col" "milvus" 3 1 20
      true =
      (Except.ok { results := [milvusToCanonical hitA],
                   saved_filepath := none,
                   save_error := some "disk full" },
       [Event.connect "default" milvusUri, Event.loadCollection "col",
        Event.milvusQuery "id >= 0"
          ["embedding_provider", "embedding_model"] 1,
        Event.embedQuery "q" (PyVal.pyStr "openai") (PyVal.pyStr "m"),
        Event.milvusSearch 3 "word_count >= 20", Event.disconnect "default",
        Event.saveResults "q" "col"]) ∧
    searchService okMilvusStore okChromaStore (Except.ok [1])
      (Except.ok "04-search-results/search_col.json") "q" "col" "milvus" 3 1
      20 true =
      (Except.ok { results := [milvusToCanonical hitA],
                   saved_filepath := some "04-search-results/search_col.json",
                   save_error := none },
       [Event.connect "default" milvusUri, Event.loadCollection "col",
        Event.milvusQuery "id >= 0"
          ["embedding_provider", "embedding_model"] 1,
        Event.embedQuery "q" (PyVal.pyStr "openai") (PyVal.pyStr "m"),
        Event.milvusSearch 3 "word_count >= 20", Event.disconnect "default",
        Event.saveResults "q" "col"]) := by
  have hb : searchBranch okMilvusStore okChromaStore (Except.ok [1]) "q"
      "col" "milvus" 3 1 20 =
      (Except.ok [milvusToCanonical hitA],
       [Event.connect "default" milvusUri, Event.loadCollection "col",
        Event.milvusQuery "id >= 0"
          ["embedding_provider", "embedding_model"] 1,
        Event.embedQuery "q" (PyVal.pyStr "openai") (PyVal.pyStr "m"),
        Event.milvusSearch 3 "word_count >= 20",
        Event.disconnect "default"]) := by
    norm_num [searchBranch, milvusTag, searchMilvus, milvusBody, step,
      okMilvusStore, processMilvusHits, milvusToCanonical, milvusCanonMeta,
      hitA, hitB, List.filterMap_cons]
    decide
  have h := claim_C9_save_isolation okMilvusStore okChromaStore
    (Except.ok [1]) "q" "col" "milvus" 3 1 20 [milvusToCanonical hitA] _ hb
    (by simp)
  exact ⟨by simpa using h.1 (PyError.native "disk full"),
    by simpa using h.2 "04-search-results/search_col.json"⟩
